import Mathlib

/-!
Verification development for the DSOG delivery service worker (`src/sw.js`).

The JavaScript source is shallowly embedded: each strategy function becomes a
pure Lean function over an explicit world (a cache modelled as an association
list keyed by URL string, a network transport modelled as the outcome of the
single `fetch` the strategy performs, and the current clock value).  JSON
values are modelled by the inductive `SW.JVal`; a parsed `URL` object is
modelled by `SW.Url`, keeping the projections the code reads (`protocol`,
`origin`, `href`, and the search parameters).  Fallible operations return
`Option`; a JavaScript `throw` escaping a function is an explicit constructor
of the result type.
-/

namespace SW

/-- `true` iff `pat` occurs as a contiguous sublist of `s`.  Models
JavaScript `String.prototype.includes` on character lists. -/
def subOccurs (pat : List Char) : List Char → Bool
  | [] => pat.isEmpty
  | c :: t => pat.isPrefixOf (c :: t) || subOccurs pat t

/-- JavaScript `s.includes(pat)`. -/
def strIncludes (s pat : String) : Bool :=
  subOccurs pat.data s.data

/-- A JSON value, as produced by `Response.json()` / `JSON.parse`. -/
inductive JVal where
  | obj (fields : List (String × JVal))
  | arr (elems : List JVal)
  | str (s : String)
  | num (n : Int)
  | bool (b : Bool)
  | null

/-- Field lookup on a JSON object: `v.name` in JavaScript.  Returns `none`
(i.e. `undefined`) when `v` is not an object or lacks the field. -/
def jGet (v : JVal) (name : String) : Option JVal :=
  match v with
  | .obj fields => (fields.find? (fun f => f.1 == name)).map (·.2)
  | _ => none

/-- A parsed `URL` object, restricted to the projections `sw.js` reads:
the protocol, the origin, the part of the URL before the query string
(`base`), and the parsed search parameters in order. -/
structure Url where
  protocol : String
  origin : String
  base : String
  params : List (String × String)
deriving DecidableEq, Repr

/-- Serialization of search parameters, as `URLSearchParams.toString`. -/
def paramString : List (String × String) → String
  | [] => ""
  | [(k, v)] => k ++ "=" ++ v
  | (k, v) :: rest => k ++ "=" ++ v ++ "&" ++ paramString rest

/-- `url.toString()` / `url.href`: the base followed by the serialized
query string when one is present. -/
def urlString (u : Url) : String :=
  if u.params.isEmpty then u.base else u.base ++ "?" ++ paramString u.params

/-- A request, restricted to what `sw.js` reads: method, parsed URL, and
the `Accept` header (`none` when the header is absent). -/
structure Request where
  method : String
  url : Url
  accept : Option String
deriving DecidableEq, Repr

/-- `request.headers.get('Accept')?.includes('text/html')`: `false` when the
header is absent (optional chaining yields `undefined`, which is falsy). -/
def acceptsHtml (r : Request) : Bool :=
  match r.accept with
  | some a => strIncludes a "text/html"
  | none => false

/-- The volatile query parameters stripped by `generateCacheKey`:
`timestamp`, `_`, `cacheBuster`.  `URLSearchParams.delete` removes every
pair with the given name, hence the filter. -/
def stripVolatile (ps : List (String × String)) : List (String × String) :=
  ps.filter (fun p => p.1 ≠ "timestamp" && p.1 ≠ "_" && p.1 ≠ "cacheBuster")

/-- `generateCacheKey(request)` (sw.js:375-386): deletes the parameters
`timestamp`, `_`, `cacheBuster` from the URL's search parameters and
rebuilds the request with the resulting URL, keeping everything else. -/
def generateCacheKey (r : Request) : Request :=
  { r with url := { r.url with params := stripVolatile r.url.params } }

theorem stripVolatile_idem (ps : List (String × String)) :
    stripVolatile (stripVolatile ps) = stripVolatile ps := by
  simp [stripVolatile, List.filter_filter]

theorem stripVolatile_id_of_absent (ps : List (String × String))
    (h : ∀ p ∈ ps, p.1 ≠ "timestamp" ∧ p.1 ≠ "_" ∧ p.1 ≠ "cacheBuster") :
    stripVolatile ps = ps := by
  unfold stripVolatile
  apply List.filter_eq_self.mpr
  intro p hp
  rcases h p hp with ⟨h1, h2, h3⟩
  simp [h1, h2, h3]

/-! ## Strategy dispatcher (the `fetch` listener, sw.js:71-119) -/

/-- The five strategies plus the pass-through branch (the listener returns
without calling `respondWith`, so the request is not intercepted). -/
inductive Strategy where
  | notIntercepted
  | networkFirst
  | networkOnly
  | apiCache
  | cacheFirst
  | offlineFallback
deriving DecidableEq, Repr

/-- The `fetch` listener's classification (sw.js:71-119), translated
branch by branch.  `selfOrigin` stands for `self.location.origin`. -/
def route (selfOrigin : String) (r : Request) : Strategy :=
  if r.method != "GET" || r.url.protocol == "chrome-extension:" then .notIntercepted
  else if strIncludes (urlString r.url) "maps.googleapis.com/maps/api" then .networkFirst
  else if strIncludes (urlString r.url) "accounts.google.com/gsi/" then .networkOnly
  else if strIncludes (urlString r.url) "script.google.com/macros/s/" then .apiCache
  else if strIncludes (urlString r.url) "cdnjs.cloudflare.com/ajax/libs/font-awesome" then .cacheFirst
  else if r.url.origin == selfOrigin then
    (if acceptsHtml r then .offlineFallback else .cacheFirst)
  else .networkFirst

/-- The spec's ordered branch table (§4.2): a predicate and the strategy it
selects, top to bottom; the last entry is the catch-all default. -/
def specBranches (selfOrigin : String) : List ((Request → Bool) × Strategy) :=
  [ (fun r => r.method != "GET" || r.url.protocol == "chrome-extension:", .notIntercepted),
    (fun r => strIncludes (urlString r.url) "maps.googleapis.com/maps/api", .networkFirst),
    (fun r => strIncludes (urlString r.url) "accounts.google.com/gsi/", .networkOnly),
    (fun r => strIncludes (urlString r.url) "script.google.com/macros/s/", .apiCache),
    (fun r => strIncludes (urlString r.url) "cdnjs.cloudflare.com/ajax/libs/font-awesome", .cacheFirst),
    (fun r => r.url.origin == selfOrigin && acceptsHtml r, .offlineFallback),
    (fun r => r.url.origin == selfOrigin, .cacheFirst),
    (fun _ => true, .networkFirst) ]

/-- First-match-wins evaluation of an ordered branch table. -/
def firstMatchWins (d : Strategy) : List ((Request → Bool) × Strategy) → Request → Strategy
  | [], _ => d
  | b :: bs, r => if b.1 r then b.2 else firstMatchWins d bs r

/-- The Boolean outcomes of the branch predicates on request `r`, in order. -/
def branchBools (selfOrigin : String) (r : Request) : List Bool :=
  (specBranches selfOrigin).map (fun b => b.1 r)

/-- Branch `i` is the first branch of the table that matches `r`. -/
def firstHit (selfOrigin : String) (r : Request) (i : Nat) : Prop :=
  i < (specBranches selfOrigin).length ∧
  (branchBools selfOrigin r).getD i false = true ∧
  ∀ j < i, (branchBools selfOrigin r).getD j false = false

/-! ## Static-namespace cache model and the static strategies -/

def CACHE_NAME : String := "dsog-delivery-v2.1.0"

def API_CACHE_NAME : String := "dsog-api-cache-v1.0"

def OFFLINE_URL : String := "/delivery/offline.html"

/-- A stored/network response for the static strategies: its status and an
opaque body. -/
structure SResp where
  status : Nat
  body : String
deriving DecidableEq, Repr

/-- JavaScript `Response.ok`: status in the inclusive range 200-299. -/
def respOk (status : Nat) : Bool :=
  200 ≤ status && status ≤ 299

/-- `cache.match(k)`: the first entry stored under key `k`, if any. -/
def cacheMatch {α : Type} (c : List (String × α)) (k : String) : Option α :=
  (c.find? (fun e => e.1 == k)).map (·.2)

/-- `cache.put(k, v)`: supersedes any previous entry under `k`. -/
def cachePut {α : Type} (c : List (String × α)) (k : String) (v : α) : List (String × α) :=
  c.filter (fun e => e.1 != k) ++ [(k, v)]

/-- `cache.delete(k)`. -/
def cacheDeleteKey {α : Type} (c : List (String × α)) (k : String) : List (String × α) :=
  c.filter (fun e => e.1 != k)

/-- The key a `Request` occupies in a `Cache`: its full serialized URL
(the Cache API matches on the request URL, query string included). -/
def rawKey (r : Request) : String :=
  urlString r.url

/-- Outcome of a static strategy: a real response (cached or from the
network), the synthesized `408` "Network error" response, the inline
synthesized offline HTML document, or an exception escaping the function. -/
inductive SResult where
  | resp (res : SResp)
  | err408
  | offlineHtml
  | thrown
deriving DecidableEq, Repr

/-- A static strategy's full outcome: its result, the static namespace
afterwards, and whether `fetch` was invoked. -/
structure StratOut where
  result : SResult
  cache : List (String × SResp)
  fetched : Bool
deriving DecidableEq, Repr

/-- `cacheFirstStrategy` (sw.js:122-161).  `net` is the outcome of the
`fetch` the function would perform on a miss: `some res` when the fetch
resolves with `res`, `none` when it rejects (network error). -/
def cacheFirstStrategy (net : Option SResp) (cache : List (String × SResp))
    (r : Request) : StratOut :=
  match cacheMatch cache (rawKey r) with
  | some res => ⟨.resp res, cache, false⟩
  | none =>
    match net with
    | some res =>
      ⟨.resp res, if respOk res.status then cachePut cache (rawKey r) res else cache, true⟩
    | none =>
      if acceptsHtml r then
        match cacheMatch cache OFFLINE_URL with
        | some off => ⟨.resp off, cache, true⟩
        | none => ⟨.err408, cache, true⟩
      else ⟨.err408, cache, true⟩

/-- `networkFirstStrategy` (sw.js:164-194).  On network failure with no
cached copy and no offline fallback the original error is rethrown
(`.thrown`). -/
def networkFirstStrategy (net : Option SResp) (cache : List (String × SResp))
    (r : Request) : StratOut :=
  match net with
  | some res => ⟨.resp res, cachePut cache (rawKey r) res, true⟩
  | none =>
    match cacheMatch cache (rawKey r) with
    | some res => ⟨.resp res, cache, true⟩
    | none =>
      if acceptsHtml r then
        match cacheMatch cache OFFLINE_URL with
        | some off => ⟨.resp off, cache, true⟩
        | none => ⟨.thrown, cache, true⟩
      else ⟨.thrown, cache, true⟩

/-- `networkFirstWithOfflineFallback` (sw.js:267-359).  When the offline
page is not stored, a self-contained offline HTML document is synthesized
inline (`.offlineHtml`). -/
def networkFirstWithOfflineFallback (net : Option SResp) (cache : List (String × SResp))
    (r : Request) : StratOut :=
  match net with
  | some res => ⟨.resp res, cachePut cache (rawKey r) res, true⟩
  | none =>
    match cacheMatch cache OFFLINE_URL with
    | some off => ⟨.resp off, cache, true⟩
    | none => ⟨.offlineHtml, cache, true⟩

/-- `networkOnlyStrategy` (sw.js:361-372): touches no cache at all. -/
def networkOnlyStrategy (net : Option SResp) : SResult :=
  match net with
  | some res => .resp res
  | none => .err408

/-! ## TTL-bounded API cache (`networkFirstWithApiCache`, sw.js:197-264) -/

/-- A network response for the API strategy: status plus the outcome of
`response.json()` (`none` when the body is not JSON-decodable). -/
structure ApiResponse where
  status : Nat
  body : Option JVal

/-- The record persisted in the API namespace:
`{data, timestamp: Date.now(), url: request.url}` (sw.js:212-216). -/
structure Envelope where
  data : JVal
  timestamp : Nat
  url : String

/-- Outcome of the API strategy: the network response returned unchanged, a
fresh 200 JSON response carrying a value, or a synthesized error response
with a status and a JSON body. -/
inductive ApiResult where
  | network (res : ApiResponse)
  | jsonResp (v : JVal)
  | errResp (status : Nat) (v : JVal)

/-- `MAX_CACHE_AGE = 60 * 60 * 1000` (one hour, sw.js:240). -/
def MAX_CACHE_AGE : Nat := 60 * 60 * 1000

/-- The synthesized failure envelope (sw.js:254-259). -/
def failureEnvelope : JVal :=
  .obj [ ("success", .bool false),
         ("error", .str "Network error"),
         ("message", .str "Unable to connect. Please check your internet connection."),
         ("data", .arr []) ]

/-- JavaScript `x === false` on an optional JSON value. -/
def isFalseVal : Option JVal → Bool
  | some (.bool false) => true
  | _ => false

/-- The `catch` block of `networkFirstWithApiCache` (sw.js:229-263): cache
lookup under the normalized key, freshness check against `MAX_CACHE_AGE`,
expiry deletion, failure envelope. -/
def apiFallback (now : Nat) (cache : List (String × Envelope)) (key : String) :
    ApiResult × List (String × Envelope) :=
  match cacheMatch cache key with
  | some env =>
    if now - env.timestamp < MAX_CACHE_AGE then (.jsonResp env.data, cache)
    else (.errResp 408 failureEnvelope, cacheDeleteKey cache key)
  | none => (.errResp 408 failureEnvelope, cache)

/-- `networkFirstWithApiCache` (sw.js:197-264).  `net` is the outcome of
the single `fetch`; a resolved non-2xx response, a JSON decode failure and
a rejected fetch all land in the `catch` block (`apiFallback`). -/
def networkFirstWithApiCache (now : Nat) (net : Option ApiResponse)
    (cache : List (String × Envelope)) (r : Request) :
    ApiResult × List (String × Envelope) :=
  let key := rawKey (generateCacheKey r)
  match net with
  | some res =>
    if respOk res.status then
      match res.body with
      | some v =>
        if isFalseVal (jGet v "success") then (.network res, cache)
        else (.network res, cachePut cache key ⟨v, now, urlString r.url⟩)
      | none => apiFallback now cache key
    else apiFallback now cache key
  | none => apiFallback now cache key

/-! ## Install lifecycle (sw.js:27-44) -/

/-- `PRECACHE_URLS` (sw.js:9-16). -/
def PRECACHE_URLS : List String :=
  [ "/delivery/",
    "/delivery/index.html",
    "/delivery/offline.html",
    "https://i.postimg.cc/kMZ1jTww/Untitled-design-4-removebg-preview.png",
    "https://cdnjs.cloudflare.com/ajax/libs/font-awesome/6.4.0/css/all.min.css",
    "https://fonts.googleapis.com/css2?family=Segoe+UI:wght@300;400;500;600;700&display=swap" ]

/-- Fetch every URL of the list; `none` as soon as any single fetch fails.
Helper for `addAll`. -/
def fetchAll (net : String → Option SResp) : List String → Option (List (String × SResp))
  | [] => some []
  | u :: us =>
    match net u, fetchAll net us with
    | some res, some rest => some ((u, res) :: rest)
    | _, _ => none

/-- Modelled from the spec: `cache.addAll(urls)` is the external Cache
Store capability's batch insert — "failure of any single URL fetch aborts
the whole warm-up (all-or-nothing)".  On success every fetched response is
stored; on any failure the operation rejects and the cache is untouched. -/
def addAll (net : String → Option SResp) (cache : List (String × SResp))
    (urls : List String) : Option (List (String × SResp)) :=
  (fetchAll net urls).map (fun es => es.foldl (fun c e => cachePut c e.1 e.2) cache)

/-- Observable outcome of the install transition: the static namespace
afterwards, whether the promise handed to `event.waitUntil` resolved
(which is what reports installation success to the host), and whether
`self.skipWaiting()` was reached. -/
structure InstallOut where
  cache : List (String × SResp)
  installSucceeded : Bool
  skipWaitingCalled : Bool
deriving DecidableEq, Repr

/-- The `install` listener (sw.js:27-44).  `caches.open` creates the
(empty) namespace; then `cache.addAll(PRECACHE_URLS)` runs; on success
`self.skipWaiting()` is called.  The trailing `.catch` (sw.js:40-42) only
logs, so the promise given to `waitUntil` resolves on both branches:
`installSucceeded` is `true` even when the warm-up failed. -/
def installHandler (net : String → Option SResp) : InstallOut :=
  match addAll net [] PRECACHE_URLS with
  | some c => ⟨c, true, true⟩
  | none => ⟨[], true, false⟩

/-! ## Durable retry queue (sw.js:398-472) -/

/-- A record of the `pending-requests` object store: `id` is the
auto-increment primary key; the remaining fields are what the enqueuing
application stored. -/
structure PendingRequest where
  id : Nat
  method : String
  url : String
  headers : List (String × String)
  body : String
  timestamp : Nat
deriving DecidableEq, Repr

/-- Comparison used to model the `timestamp` index ordering. -/
def tsLE (a b : PendingRequest) : Bool :=
  a.timestamp ≤ b.timestamp

/-- `getAllPendingRequests` (sw.js:451-461).  Modelled from the spec: the
persistent store capability lists all records "ordered by timestamp
ascending" (`index('timestamp').getAll()`); records with equal timestamps
come in primary-key order, hence the stable sort of the store's
id-ordered contents. -/
def getAllPendingRequests (db : List PendingRequest) : List PendingRequest :=
  db.mergeSort tsLE

/-- `deletePendingRequest` (sw.js:463-472): delete-by-id. -/
def deletePendingRequest (db : List PendingRequest) (i : Nat) : List PendingRequest :=
  db.filter (fun r => r.id != i)

/-- The replay `fetch(request.url, {method, headers, body})` (sw.js:407-411):
the transport receives exactly the stored url, method, headers and body and
yields `some status` when it resolves, `none` when it rejects. -/
def replayStatus (t : String → String → List (String × String) → String → Option Nat)
    (r : PendingRequest) : Option Nat :=
  t r.url r.method r.headers r.body

/-- `response.ok` of the replay; a rejected replay counts as not ok
(the `catch` at sw.js:417-419 swallows it). -/
def replayOk (t : String → String → List (String × String) → String → Option Nat)
    (r : PendingRequest) : Bool :=
  match replayStatus t r with
  | some s => respOk s
  | none => false

/-- `syncDeliveryRequests` (sw.js:398-426): snapshot the queue in timestamp
order, then attempt each entry once in that order, deleting an entry
exactly when its replay resolves ok.  Returns the attempted sequence (in
attempt order) and the store contents afterwards. -/
def syncDeliveryRequests
    (t : String → String → List (String × String) → String → Option Nat)
    (db : List PendingRequest) : List PendingRequest × List PendingRequest :=
  let pending := getAllPendingRequests db
  (pending,
    pending.foldl (fun acc r => if replayOk t r then deletePendingRequest acc r.id else acc) db)

/-! ## Push handler (sw.js:475-506) -/

/-- Observable outcome of the `push` listener: nothing happens, a
notification is shown with a title, a body, and the `url` stored in its
`data`, or an exception escapes the listener. -/
inductive PushOutcome where
  | noop
  | shown (title : String) (body : String) (dataUrl : String)
  | uncaught
deriving DecidableEq, Repr

/-- JavaScript `data.name || dflt` for the string-typed payload fields of
the push message shape `{title?, body?, url?}`: a missing field and the
empty string are falsy and fall back to the default. -/
def jStrOr (v : JVal) (name : String) (dflt : String) : String :=
  match jGet v name with
  | some (.str s) => if s = "" then dflt else s
  | _ => dflt

/-- The `push` listener (sw.js:475-506).  `payload` is `none` when
`event.data` is null (sw.js:478 returns), `some none` when data is present
but `event.data.json()` throws (sw.js:480 is not guarded by any
try/catch, so the exception escapes the listener), and `some (some v)`
when it decodes to `v` (a notification is shown with `data.url` in its
associated data). -/
def pushHandler (payload : Option (Option JVal)) : PushOutcome :=
  match payload with
  | none => .noop
  | some none => .uncaught
  | some (some v) =>
    .shown (jStrOr v "title" "DSOG Delivery") (jStrOr v "body" "New delivery update")
      (jStrOr v "url" "/delivery/")

/-! ## General lemmas about the cache model -/

theorem cacheMatch_cachePut {α : Type} (c : List (String × α)) (k : String) (v : α) :
    cacheMatch (cachePut c k v) k = some v := by
  unfold cacheMatch cachePut
  have h : (c.filter (fun e => e.1 != k)).find? (fun e => e.1 == k) = none := by
    apply List.find?_eq_none.mpr
    intro x hx
    have hne := List.of_mem_filter hx
    simp only [bne_iff_ne, ne_eq] at hne
    simp [hne]
  rw [List.find?_append, h]
  simp

theorem fetchAll_eq_none (net : String → Option SResp) (urls : List String)
    (h : ∃ u ∈ urls, net u = none) : fetchAll net urls = none := by
  induction urls with
  | nil => simp at h
  | cons u us ih =>
    rcases h with ⟨w, hw, hnone⟩
    rcases List.mem_cons.mp hw with h1 | h2
    · subst h1
      simp [fetchAll, hnone]
    · rw [fetchAll, ih ⟨w, h2, hnone⟩]
      cases net u <;> simp

/-! ## General lemmas about first-match-wins dispatch -/

theorem firstMatchWins_of_hits (d : Strategy) (bs : List ((Request → Bool) × Strategy))
    (r : Request) (i : Nat) (hi : i < bs.length)
    (ht : (bs.map (fun b => b.1 r)).getD i false = true)
    (hf : ∀ j < i, (bs.map (fun b => b.1 r)).getD j false = false) :
    firstMatchWins d bs r = ((bs.getD i (fun _ => false, d)).2 : Strategy) := by
  induction bs generalizing i with
  | nil => simp at hi
  | cons b bs ih =>
    cases i with
    | zero =>
      simp only [List.map_cons, List.getD_cons_zero] at ht
      simp [firstMatchWins, ht, List.getD_cons_zero]
    | succ j =>
      have h0 : b.1 r = false := by
        have := hf 0 (Nat.succ_pos j)
        simpa using this
      simp only [firstMatchWins, h0, Bool.false_eq_true, if_false, List.getD_cons_succ]
      exact ih j (by simpa using hi) (by simpa using ht)
        (fun k hk => by simpa using hf (k + 1) (by omega))

theorem branchBools_getD_last (o : String) (r : Request) :
    (branchBools o r).getD 7 false = true := rfl

theorem firstHit_exists_unique (o : String) (r : Request) : ∃! i, firstHit o r i := by
  have hex : ∃ i, (branchBools o r).getD i false = true := ⟨7, branchBools_getD_last o r⟩
  classical
  let i0 := Nat.find hex
  have hle : i0 ≤ 7 := Nat.find_min' hex (branchBools_getD_last o r)
  refine ⟨i0, ⟨?_, Nat.find_spec hex, ?_⟩, ?_⟩
  · have : (specBranches o).length = 8 := rfl
    omega
  · intro j hj
    have := Nat.find_min hex hj
    simpa using this
  · intro j hj
    rcases hj with ⟨hjlen, hjt, hjf⟩
    rcases lt_trichotomy j i0 with h | h | h
    · exact absurd hjt (Nat.find_min hex h)
    · exact h
    · exact absurd (Nat.find_spec hex) (by rw [hjf i0 h]; simp)

/-! ## Lemmas about the retry-queue drain -/

theorem syncFold_eq_filter (t : String → String → List (String × String) → String → Option Nat)
    (l db : List PendingRequest) :
    l.foldl (fun acc r => if replayOk t r then deletePendingRequest acc r.id else acc) db =
    db.filter (fun x => !(l.any (fun r => replayOk t r && x.id == r.id))) := by
  induction l generalizing db with
  | nil => simp
  | cons r l ih =>
    simp only [List.foldl_cons, List.any_cons]
    cases hr : replayOk t r with
    | false =>
      rw [if_neg (by simp [hr]), ih]
      simp [hr]
    | true =>
      rw [if_pos (by simp [hr]), ih, deletePendingRequest, List.filter_filter]
      simp only [hr, Bool.true_and]
      apply List.filter_congr
      intro x _
      cases hx : (x.id == r.id) <;>
        cases hha : (l.any fun q => replayOk t q && x.id == q.id) <;>
          simp [hx, hha, bne]

theorem getAll_perm (db : List PendingRequest) : (getAllPendingRequests db).Perm db :=
  List.mergeSort_perm db tsLE

theorem getAll_sorted (db : List PendingRequest) :
    (getAllPendingRequests db).Pairwise (fun a b => a.timestamp ≤ b.timestamp) := by
  have h := @List.sorted_mergeSort PendingRequest tsLE
    (fun a b c hab hbc => by simp only [tsLE, decide_eq_true_eq] at *; omega)
    (fun a b => by simp only [tsLE]; rcases Nat.le_total a.timestamp b.timestamp with h | h <;> simp [h])
    db
  exact h.imp (fun hab => by simpa [tsLE, decide_eq_true_eq] using hab)

theorem id_injective_on (db : List PendingRequest)
    (hid : db.Pairwise (fun a b => a.id ≠ b.id)) :
    ∀ x ∈ db, ∀ y ∈ db, x.id = y.id → x = y := by
  intro x hx y hy hxy
  by_contra hne
  exact (hid.forall (fun a b h => (Ne.symm h)) hx hy hne) hxy

/-! ## Concrete sample data used by witnesses and counterexamples -/

/-- An App-Script request carrying a volatile `cacheBuster` parameter. -/
def rq1 : Request :=
  ⟨"GET", ⟨"https:", "https://script.google.com",
    "https://script.google.com/macros/s/XYZ", [("page", "2"), ("cacheBuster", "123")]⟩, none⟩

/-- The same request as `rq1` up to a different volatile parameter. -/
def rq2 : Request :=
  ⟨"GET", ⟨"https:", "https://script.google.com",
    "https://script.google.com/macros/s/XYZ", [("page", "2"), ("timestamp", "999")]⟩, none⟩

/-- A same-origin asset request with no volatile parameters. -/
def rq3 : Request :=
  ⟨"GET", ⟨"https:", "https://dsog.example", "https://dsog.example/app.css", [("v", "7")]⟩, none⟩

/-- C8: `generateCacheKey` is idempotent; two requests that differ only in
the stripped volatile parameters (`timestamp`, `_`, `cacheBuster`) — that
is, agree on method, headers and URL components once the volatile
parameters are removed — normalize to an identical key; and when none of
the volatile parameters is present it is a no-op (the function is total,
so there are no error conditions). -/
theorem normalize_idem_collapse :
    (∀ r : Request, generateCacheKey (generateCacheKey r) = generateCacheKey r) ∧
    (∀ r₁ r₂ : Request, r₁.method = r₂.method → r₁.accept = r₂.accept →
      r₁.url.protocol = r₂.url.protocol → r₁.url.origin = r₂.url.origin →
      r₁.url.base = r₂.url.base →
      stripVolatile r₁.url.params = stripVolatile r₂.url.params →
      generateCacheKey r₁ = generateCacheKey r₂) ∧
    (∀ r : Request,
      (∀ p ∈ r.url.params, p.1 ≠ "timestamp" ∧ p.1 ≠ "_" ∧ p.1 ≠ "cacheBuster") →
      generateCacheKey r = r) := by
  refine ⟨?_, ?_, ?_⟩
  · intro r
    simp [generateCacheKey, stripVolatile_idem]
  · intro r₁ r₂ hm ha hp ho hb hs
    cases r₁ with
    | mk m₁ u₁ a₁ =>
      cases r₂ with
      | mk m₂ u₂ a₂ =>
        cases u₁
        cases u₂
        simp_all [generateCacheKey]
  · intro r h
    have hid := stripVolatile_id_of_absent r.url.params h
    cases r with
    | mk m u a =>
      cases u
      simp_all [generateCacheKey]

/-- Witness for C8 at concrete requests: `rq1` and `rq2` differ only in
volatile parameters and share a key; `rq3` has none and is untouched. -/
theorem normalize_idem_collapse_w :
    generateCacheKey rq1 = generateCacheKey rq2 ∧ generateCacheKey rq3 = rq3 :=
  ⟨normalize_idem_collapse.2.1 rq1 rq2 rfl rfl rfl rfl rfl (by decide),
   normalize_idem_collapse.2.2 rq3 (by decide)⟩

/-- C4: the dispatcher's classification is a total function evaluated as
the first-match-wins reading of the spec's ordered eight-branch table
(non-GET/browser-internal, maps API, sign-in API, App-Script API,
icon-font host, same-origin HTML, same-origin other, default): every
request has exactly one first matching branch, and `route` returns that
branch's strategy. -/
theorem dispatch_classification (o : String) (r : Request) :
    route o r = firstMatchWins .networkFirst (specBranches o) r ∧
    (∃! i, firstHit o r i) ∧
    (∀ i, firstHit o r i →
      route o r = ((specBranches o).getD i (fun _ => false, .networkFirst)).2) := by
  have heq : route o r = firstMatchWins .networkFirst (specBranches o) r := by
    simp only [route, specBranches, firstMatchWins]
    cases hO : (r.url.origin == o) <;> cases hH : acceptsHtml r <;> simp [hO, hH]
  refine ⟨heq, firstHit_exists_unique o r, ?_⟩
  intro i hi
  rcases hi with ⟨hlen, ht, hf⟩
  rw [heq]
  exact firstMatchWins_of_hits .networkFirst (specBranches o) r i hlen
    (by simpa [branchBools] using ht) (fun j hj => by simpa [branchBools] using hf j hj)

/-- Witness for C4: the concrete App-Script request `rq1` first matches
branch 3 of the table and is routed to the API-cache strategy. -/
theorem dispatch_classification_w :
    route "https://dsog.example" rq1 =
      ((specBranches "https://dsog.example").getD 3 (fun _ => false, .networkFirst)).2 :=
  (dispatch_classification "https://dsog.example" rq1).2.2 3
    ⟨by decide, by decide, by decide⟩

/-- C1: when the network attempt fails (rejected fetch, or a resolved
non-2xx response, which the strategy converts to a failure), the API-cache
strategy serves the stored `data` field as a fresh JSON response if the
record under the normalized key is strictly younger than one hour; if the
record is at least one hour old it is deleted from the API namespace and
the synthesized `{success:false, error, message, data:[]}` envelope is
returned with status 408; and with no record the envelope is returned
directly, the namespace untouched. -/
theorem api_cache_ttl_read (now : Nat) (net : Option ApiResponse)
    (cache : List (String × Envelope)) (r : Request)
    (hnet : net = none ∨ ∃ res, net = some res ∧ respOk res.status = false) :
    (∀ env, cacheMatch cache (rawKey (generateCacheKey r)) = some env →
      (now - env.timestamp < MAX_CACHE_AGE →
        networkFirstWithApiCache now net cache r = (.jsonResp env.data, cache)) ∧
      (MAX_CACHE_AGE ≤ now - env.timestamp →
        networkFirstWithApiCache now net cache r =
          (.errResp 408 failureEnvelope,
            cacheDeleteKey cache (rawKey (generateCacheKey r))))) ∧
    (cacheMatch cache (rawKey (generateCacheKey r)) = none →
      networkFirstWithApiCache now net cache r = (.errResp 408 failureEnvelope, cache)) := by
  have hfb : networkFirstWithApiCache now net cache r =
      apiFallback now cache (rawKey (generateCacheKey r)) := by
    rcases hnet with h | ⟨res, hres, hok⟩
    · subst h
      rfl
    · subst hres
      simp [networkFirstWithApiCache, hok]
  constructor
  · intro env henv
    constructor
    · intro hage
      rw [hfb]
      simp [apiFallback, henv, hage]
    · intro hage
      rw [hfb]
      have hnotlt : ¬ (now - env.timestamp < MAX_CACHE_AGE) := by omega
      simp [apiFallback, henv, hnotlt]
  · intro hnone
    rw [hfb]
    simp [apiFallback, hnone]

/-- A 50-minute-old cached envelope for the normalized key of `rq1`. -/
def envApi : Envelope :=
  ⟨.arr [.str "order1"], 1000, "https://script.google.com/macros/s/XYZ?page=2&cacheBuster=123"⟩

/-- An API namespace holding `envApi` under the normalized key of `rq1`. -/
def apiCache0 : List (String × Envelope) :=
  [("https://script.google.com/macros/s/XYZ?page=2", envApi)]

/-- Witness for C1: network down, 50-minute-old record → the cached data
is served and the namespace is unchanged. -/
theorem api_cache_ttl_read_w :
    networkFirstWithApiCache (1000 + 50 * 60 * 1000) none apiCache0 rq1 =
      (.jsonResp envApi.data, apiCache0) :=
  ((api_cache_ttl_read (1000 + 50 * 60 * 1000) none apiCache0 rq1 (Or.inl rfl)).1
    envApi rfl).1 (by decide)

/-- A same-origin asset request with no volatile parameters. -/
def rAsset : Request :=
  ⟨"GET", ⟨"https:", "https://dsog.example", "https://dsog.example/app.css", []⟩, none⟩

/-- `rAsset` with a volatile `cacheBuster` parameter appended. -/
def rAssetCB : Request :=
  ⟨"GET", ⟨"https:", "https://dsog.example", "https://dsog.example/app.css",
    [("cacheBuster", "9")]⟩, none⟩

/-- A good cached copy of the asset. -/
def cachedCss : SResp := ⟨200, "css"⟩

/-- A static namespace holding `cachedCss` under `rAsset`'s raw URL. -/
def staticCache0 : List (String × SResp) := [("https://dsog.example/app.css", cachedCss)]

/-- C7: a static-namespace hit short-circuits Cache-First — the cached
response is returned, the transport is never invoked, and the namespace is
left unchanged; moreover the namespace changes only on a miss whose
network response is ok (population never refreshes an existing hit). -/
theorem cache_first_hit_short_circuit (net : Option SResp)
    (cache : List (String × SResp)) (r : Request) :
    (∀ res, cacheMatch cache (rawKey r) = some res →
      cacheFirstStrategy net cache r = ⟨.resp res, cache, false⟩) ∧
    ((cacheFirstStrategy net cache r).cache ≠ cache →
      cacheMatch cache (rawKey r) = none ∧
      (cacheFirstStrategy net cache r).fetched = true ∧
      ∃ res, net = some res ∧ respOk res.status = true ∧
        (cacheFirstStrategy net cache r).cache = cachePut cache (rawKey r) res) := by
  constructor
  · intro res h
    simp [cacheFirstStrategy, h]
  · intro hne
    cases hm : cacheMatch cache (rawKey r) with
    | some res =>
      simp [cacheFirstStrategy, hm] at hne
    | none =>
      refine ⟨rfl, ?_, ?_⟩
      · cases hn : net with
        | some res => simp [cacheFirstStrategy, hm, hn]
        | none =>
          cases hh : acceptsHtml r
          · simp [cacheFirstStrategy, hm, hn, hh]
          · cases ho : cacheMatch cache OFFLINE_URL <;>
              simp [cacheFirstStrategy, hm, hn, hh, ho]
      · cases hn : net with
        | some res =>
          cases hok : respOk res.status
          · simp [cacheFirstStrategy, hm, hn, hok] at hne
          · exact ⟨res, rfl, hok, by simp [cacheFirstStrategy, hm, hn, hok]⟩
        | none =>
          cases hh : acceptsHtml r
          · simp [cacheFirstStrategy, hm, hn, hh] at hne
          · cases ho : cacheMatch cache OFFLINE_URL <;>
              simp [cacheFirstStrategy, hm, hn, hh, ho] at hne

/-- Witness for C7: with a 500 network in waiting, the hit on `rAsset`
returns the cached copy, fetches nothing and changes nothing. -/
theorem cache_first_hit_short_circuit_w :
    cacheFirstStrategy (some ⟨500, "boom"⟩) staticCache0 rAsset =
      ⟨.resp cachedCss, staticCache0, false⟩ :=
  (cache_first_hit_short_circuit (some ⟨500, "boom"⟩) staticCache0 rAsset).1 cachedCss (by decide)

/-- Counterexample for C6: `rAsset` and `rAssetCB` differ only in the
volatile `cacheBuster` parameter and share a normalized key, yet
Cache-First serves `rAsset` from the cache without fetching while the
same call on `rAssetCB` misses and invokes the network — the lookup is
not performed under the normalized key. -/
theorem cache_first_unnormalized_cex :
    generateCacheKey rAssetCB = generateCacheKey rAsset ∧
    (cacheFirstStrategy (some ⟨200, "fresh"⟩) staticCache0 rAsset).fetched = false ∧
    (cacheFirstStrategy (some ⟨200, "fresh"⟩) staticCache0 rAssetCB).fetched = true ∧
    (cacheFirstStrategy (some ⟨200, "fresh"⟩) staticCache0 rAssetCB).result ≠
      .resp cachedCss := by
  decide

/-- C6 (amended): Cache-First performs its static-namespace lookup under
the raw (unnormalized) request URL: it short-circuits without fetching
exactly when the raw URL key is present, so two requests differing only in
the stripped volatile parameters occupy distinct static entries; only the
API-cache strategy looks up under the normalized key. -/
theorem cache_first_raw_key_lookup (net : Option SResp)
    (cache : List (String × SResp)) (r : Request) :
    (cacheFirstStrategy net cache r).fetched = false ↔
      (cacheMatch cache (rawKey r)).isSome = true := by
  cases hm : cacheMatch cache (rawKey r) with
  | some res => simp [cacheFirstStrategy, hm]
  | none =>
    cases hn : net with
    | some res => simp [cacheFirstStrategy, hm, hn]
    | none =>
      cases hh : acceptsHtml r
      · simp [cacheFirstStrategy, hm, hn, hh]
      · cases ho : cacheMatch cache OFFLINE_URL <;>
          simp [cacheFirstStrategy, hm, hn, hh, ho]

/-- Witness for C6's amended statement: the raw key of `rAsset` is
present, and indeed the strategy does not fetch. -/
theorem cache_first_raw_key_lookup_w :
    (cacheFirstStrategy (some ⟨200, "fresh"⟩) staticCache0 rAsset).fetched = false :=
  (cache_first_raw_key_lookup (some ⟨200, "fresh"⟩) staticCache0 rAsset).mpr (by decide)

/-- A resolved but failing network response. -/
def resp404 : SResp := ⟨404, "not found"⟩

/-- C10: plain Network-First and Network-First-With-Offline-Fallback
persist every resolved network response unconditionally — whatever its
status, it is written under the raw key, superseding any previously cached
copy — while Cache-First on a miss persists only when the response status
is ok. -/
theorem network_first_unconditional_persist (net : Option SResp) (res : SResp)
    (cache : List (String × SResp)) (r : Request) (h : net = some res) :
    (networkFirstStrategy net cache r).cache = cachePut cache (rawKey r) res ∧
    (networkFirstWithOfflineFallback net cache r).cache = cachePut cache (rawKey r) res ∧
    cacheMatch (networkFirstStrategy net cache r).cache (rawKey r) = some res ∧
    (cacheMatch cache (rawKey r) = none →
      (cacheFirstStrategy net cache r).cache =
        if respOk res.status then cachePut cache (rawKey r) res else cache) := by
  subst h
  refine ⟨rfl, rfl, ?_, ?_⟩
  · simp [networkFirstStrategy, cacheMatch_cachePut]
  · intro hm
    simp [cacheFirstStrategy, hm]

/-- Witness for C10: a resolved 404 overwrites the previously cached good
copy under the same key in Network-First, and Cache-First on a miss does
not persist it. -/
theorem network_first_unconditional_persist_w :
    cacheMatch (networkFirstStrategy (some resp404) staticCache0 rAsset).cache
      (rawKey rAsset) = some resp404 ∧
    (cacheFirstStrategy (some resp404) [] rAsset).cache = [] := by
  refine ⟨(network_first_unconditional_persist (some resp404) resp404 staticCache0
    rAsset rfl).2.2.1, ?_⟩
  have h := (network_first_unconditional_persist (some resp404) resp404 [] rAsset rfl).2.2.2 rfl
  simpa using h

/-- A warm-up transport on which exactly `/delivery/index.html` fails. -/
def netDrop : String → Option SResp := fun u =>
  if u == "/delivery/index.html" then none else some ⟨200, "ok"⟩

/-- Counterexample for C2: fetching `/delivery/index.html` — a member of
the warm-up set — fails, yet the install transition is still reported
successful (the listener's trailing catch swallows the rejection before it
reaches `event.waitUntil`), contradicting "installation fails entirely
... the install is not reported as successful". -/
theorem install_failure_reported_ok_cex :
    netDrop "/delivery/index.html" = none ∧
    "/delivery/index.html" ∈ PRECACHE_URLS ∧
    (installHandler netDrop).installSucceeded = true := by
  refine ⟨rfl, by decide, rfl⟩

/-- C2 (amended): the warm-up itself is all-or-nothing — if fetching any
single URL of the fixed set fails, the static namespace ends up empty
(never partially populated) and `skipWaiting` is not reached — but the
error is caught and logged, so the installation is still reported as
successful. -/
theorem install_all_or_nothing_error_swallowed (net : String → Option SResp)
    (h : ∃ u ∈ PRECACHE_URLS, net u = none) :
    (installHandler net).cache = [] ∧
    (installHandler net).skipWaitingCalled = false ∧
    (installHandler net).installSucceeded = true := by
  have hf : fetchAll net PRECACHE_URLS = none := fetchAll_eq_none net PRECACHE_URLS h
  simp [installHandler, addAll, hf]

/-- Witness for C2's amended statement at the concrete failing warm-up. -/
theorem install_all_or_nothing_error_swallowed_w :
    (installHandler netDrop).cache = [] ∧
    (installHandler netDrop).skipWaitingCalled = false ∧
    (installHandler netDrop).installSucceeded = true :=
  install_all_or_nothing_error_swallowed netDrop ⟨"/delivery/index.html", by decide, rfl⟩

/-- `true` iff the strategy produced a value (a real, cached or
synthesized response) rather than letting an exception escape. -/
def isResponse : SResult → Bool
  | .thrown => false
  | _ => true

/-- A cross-origin, non-HTML request, routed to plain Network-First. -/
def rPlainExt : Request :=
  ⟨"GET", ⟨"https:", "https://cdn.other.example", "https://cdn.other.example/lib.js", []⟩, none⟩

/-- Counterexample for C3: with the network down, an empty static
namespace and a non-HTML request, plain Network-First rethrows the error
instead of returning a response value, so not every strategy returns a
response on every path. -/
theorem network_first_rethrow_cex :
    (networkFirstStrategy none [] rPlainExt).result = .thrown := by
  decide

/-- C3 (amended): Cache-First, Network-First-With-Offline-Fallback,
Network-Only and the API-cache strategy return a response value on every
execution path, including all-catastrophic failure; plain Network-First is
the exception — it rethrows exactly when the network fails, no entry is
stored under the raw key, and no stored offline page applies. -/
theorem strategy_response_totality :
    (∀ net cache r, isResponse (cacheFirstStrategy net cache r).result = true) ∧
    (∀ net cache r, isResponse (networkFirstWithOfflineFallback net cache r).result = true) ∧
    (∀ net, isResponse (networkOnlyStrategy net) = true) ∧
    (∀ now net cache r,
      (∃ res, (networkFirstWithApiCache now net cache r).1 = .network res) ∨
      (∃ v, (networkFirstWithApiCache now net cache r).1 = .jsonResp v) ∨
      (networkFirstWithApiCache now net cache r).1 = .errResp 408 failureEnvelope) ∧
    (∀ net cache r, isResponse (networkFirstStrategy net cache r).result = false ↔
      (net = none ∧ cacheMatch cache (rawKey r) = none ∧
        (acceptsHtml r = false ∨ cacheMatch cache OFFLINE_URL = none))) := by
  refine ⟨?_, ?_, ?_, ?_, ?_⟩
  · intro net cache r
    cases hm : cacheMatch cache (rawKey r)
    · cases hn : net
      · cases hh : acceptsHtml r
        · simp [cacheFirstStrategy, hm, hh, isResponse]
        · cases ho : cacheMatch cache OFFLINE_URL <;>
            simp [cacheFirstStrategy, hm, hh, ho, isResponse]
      · simp [cacheFirstStrategy, hm, isResponse]
    · simp [cacheFirstStrategy, hm, isResponse]
  · intro net cache r
    cases hn : net
    · cases ho : cacheMatch cache OFFLINE_URL <;>
        simp [networkFirstWithOfflineFallback, ho, isResponse]
    · simp [networkFirstWithOfflineFallback, isResponse]
  · intro net
    cases net <;> simp [networkOnlyStrategy, isResponse]
  · intro now net cache r
    have hfb : ∀ key, (∃ v, (apiFallback now cache key).1 = .jsonResp v) ∨
        (apiFallback now cache key).1 = .errResp 408 failureEnvelope := by
      intro key
      cases hk : cacheMatch cache key with
      | some env =>
        cases hage : decide (now - env.timestamp < MAX_CACHE_AGE)
        · right
          simp [apiFallback, hk, of_decide_eq_false hage]
        · left
          exact ⟨env.data, by simp [apiFallback, hk, of_decide_eq_true hage]⟩
      | none => right; simp [apiFallback, hk]
    cases hn : net with
    | none =>
      rcases hfb (rawKey (generateCacheKey r)) with h | h
      · exact Or.inr (Or.inl (by simpa [networkFirstWithApiCache] using h))
      · exact Or.inr (Or.inr (by simpa [networkFirstWithApiCache] using h))
    | some res =>
      cases hok : respOk res.status
      · rcases hfb (rawKey (generateCacheKey r)) with h | h
        · exact Or.inr (Or.inl (by simpa [networkFirstWithApiCache, hok] using h))
        · exact Or.inr (Or.inr (by simpa [networkFirstWithApiCache, hok] using h))
      · cases hb : res.body with
        | none =>
          rcases hfb (rawKey (generateCacheKey r)) with h | h
          · exact Or.inr (Or.inl (by simpa [networkFirstWithApiCache, hok, hb] using h))
          · exact Or.inr (Or.inr (by simpa [networkFirstWithApiCache, hok, hb] using h))
        | some v =>
          cases hsv : isFalseVal (jGet v "success") <;>
            exact Or.inl ⟨res, by simp [networkFirstWithApiCache, hok, hb, hsv]⟩
  · intro net cache r
    cases hn : net
    · cases hm : cacheMatch cache (rawKey r)
      · cases hh : acceptsHtml r
        · simp [networkFirstStrategy, hm, hh, isResponse]
        · cases ho : cacheMatch cache OFFLINE_URL <;>
            simp [networkFirstStrategy, hm, hh, ho, isResponse]
      · simp [networkFirstStrategy, hm, isResponse]
    · simp [networkFirstStrategy, isResponse]

/-- Witness for C3's amended statement: applied at the all-failure input,
Network-Only still yields a response while plain Network-First yields
none. -/
theorem strategy_response_totality_w :
    isResponse (networkOnlyStrategy none) = true ∧
    isResponse (networkFirstStrategy none [] rPlainExt).result = false :=
  ⟨strategy_response_totality.2.2.1 none,
   (strategy_response_totality.2.2.2.2 none [] rPlainExt).mpr ⟨rfl, rfl, Or.inl rfl⟩⟩

/-- C5: given store-unique ids, a drain attempts exactly the entries
present at its start — the attempted sequence is a duplicate-free
permutation of the store, in ascending-timestamp order, each entry
replayed once via the transport with its stored url/method/headers/body —
and the store afterwards is exactly the original list restricted to the
entries whose replay was not 2xx: an entry is removed iff its replay
resolved ok, failed entries remain with their original fields (and order)
unchanged, and a failure does not prevent later attempts. -/
theorem drain_and_replay
    (t : String → String → List (String × String) → String → Option Nat)
    (db : List PendingRequest) (hid : db.Pairwise (fun a b => a.id ≠ b.id)) :
    (syncDeliveryRequests t db).1.Perm db ∧
    (syncDeliveryRequests t db).1.Pairwise (fun a b => a.timestamp ≤ b.timestamp) ∧
    (syncDeliveryRequests t db).1.Nodup ∧
    (syncDeliveryRequests t db).2 = db.filter (fun x => !(replayOk t x)) := by
  have hperm : (syncDeliveryRequests t db).1.Perm db := getAll_perm db
  refine ⟨hperm, getAll_sorted db, ?_, ?_⟩
  · exact hperm.nodup_iff.mpr
      (hid.imp (fun hab hEq => hab (congrArg PendingRequest.id hEq)))
  · show (getAllPendingRequests db).foldl
      (fun acc r => if replayOk t r then deletePendingRequest acc r.id else acc) db = _
    rw [syncFold_eq_filter]
    apply List.filter_congr
    intro x hx
    congr 1
    cases hrx : replayOk t x with
    | true =>
      exact List.any_eq_true.mpr ⟨x, hperm.mem_iff.mpr hx, by simp [hrx]⟩
    | false =>
      apply List.any_eq_false.mpr
      intro y hy
      intro hcontra
      have hsplit : replayOk t y = true ∧ x.id = y.id := by simpa using hcontra
      rcases hsplit with ⟨hok, hidy⟩
      have hyx : x = y :=
        id_injective_on db hid x hx y (hperm.mem_iff.mp hy) hidy
      rw [← hyx] at hok
      simp [hok] at hrx

/-- A replay transport failing only the first demo URL. -/
def tDemo : String → String → List (String × String) → String → Option Nat :=
  fun u _ _ _ => if u == "https://script.google.com/macros/s/post1" then some 500 else some 201

/-- A two-entry pending-request store (ids unique, timestamps reversed). -/
def dbDemo : List PendingRequest :=
  [ ⟨1, "POST", "https://script.google.com/macros/s/post1",
      [("Content-Type", "application/json")], "\x7ba\x7d", 2000⟩,
    ⟨2, "POST", "https://script.google.com/macros/s/post2", [], "\x7bb\x7d", 1000⟩ ]

/-- Witness for C5 at the concrete store: entry 1's replay resolves 500
and stays, entry 2's resolves 201 and is removed. -/
theorem drain_and_replay_w :
    (syncDeliveryRequests tDemo dbDemo).2 = dbDemo.filter (fun x => !(replayOk tDemo x)) :=
  (drain_and_replay tDemo dbDemo (by decide)).2.2.2

/-- Counterexample for C9: a push event whose payload fails to JSON-decode
lets the exception escape the listener (`event.data.json()` at sw.js:480
is unguarded) — the outcome is not the no-op the claim requires. -/
theorem push_malformed_uncaught_cex :
    pushHandler (some none) = .uncaught ∧ PushOutcome.uncaught ≠ .noop := by
  decide

/-- C9 (amended): the push handler is a no-op when the event carries no
payload; a malformed (non-JSON-decodable) payload is not caught locally —
the decode error propagates out of the listener uncaught; when the payload
decodes, a notification is displayed whose associated data carries the
target url (`data.url`, defaulting to `/delivery/`). -/
theorem push_handler_behavior :
    pushHandler none = .noop ∧
    pushHandler (some none) = .uncaught ∧
    (∀ v, pushHandler (some (some v)) =
      .shown (jStrOr v "title" "DSOG Delivery") (jStrOr v "body" "New delivery update")
        (jStrOr v "url" "/delivery/")) ∧
    (∀ v s, s ≠ "" → jGet v "url" = some (.str s) →
      ∃ ti bo, pushHandler (some (some v)) = .shown ti bo s) := by
  refine ⟨rfl, rfl, fun v => rfl, ?_⟩
  intro v s hs hurl
  refine ⟨jStrOr v "title" "DSOG Delivery", jStrOr v "body" "New delivery update", ?_⟩
  simp only [pushHandler]
  simp [jStrOr, hurl, hs]

/-- A decoded push payload with an explicit target url. -/
def pushMsg : JVal := .obj [("title", .str "Order update"), ("url", .str "/delivery/track")]

/-- Witness for C9's amended statement: the decoded payload's notification
carries `/delivery/track` in its data. -/
theorem push_handler_behavior_w :
    ∃ ti bo, pushHandler (some (some pushMsg)) = .shown ti bo "/delivery/track" :=
  push_handler_behavior.2.2.2 pushMsg "/delivery/track" (by decide) rfl

end SW
